import Mathlib

set_option maxRecDepth 8000

/-!
Shallow embedding of `src/consistent_hash.rs` (weighted consistent hashing
ring, nginx-compatible).  Machine integers (`u32`) are modelled as `Nat`
kept below `2^32` by the CRC steps themselves; byte sequences are
`List Nat` with entries below 256.
-/

/-- Bitwise exclusive or by fuelled structural recursion on the bits
(`fuel` bounds the number of bits; 32 suffices for `u32` values).
Written with plain arithmetic so that kernel evaluation is fast. -/
def xorFuel : Nat → Nat → Nat → Nat
  | 0, _, _ => 0
  | fuel + 1, a, b => (a + b) % 2 + 2 * xorFuel fuel (a / 2) (b / 2)

/-- Exclusive or on `u32` values (Rust `^` on `u32`). -/
def xor32 (a b : Nat) : Nat := xorFuel 32 a b

/-- One round of the reflected (LSB-first) CRC-32 update:
shift right one bit, xor the IEEE/zlib polynomial `0xEDB88320` when the
low bit was set.  This is the bit-level definition of the CRC used by
the `crc32fast` crate. -/
def crc32_round (crc : Nat) : Nat :=
  if crc % 2 = 1 then xor32 (crc / 2) 0xEDB88320 else crc / 2

/-- Iterate `crc32_round`. -/
def crc32_rounds : Nat → Nat → Nat
  | 0, crc => crc
  | n + 1, crc => crc32_rounds n (crc32_round crc)

/-- Feed one byte into the CRC-32 state: xor it into the low byte, then
run eight bit rounds. -/
def crc32_byte (crc b : Nat) : Nat :=
  crc32_rounds 8 (xor32 crc b)

/-- Feed a byte sequence into a CRC-32 state (`Hasher::update`). -/
def crc32_append (state : Nat) (bytes : List Nat) : Nat :=
  bytes.foldl crc32_byte state

/-- Initial CRC-32 state (`Hasher::new`): all ones. -/
def crc32_init : Nat := 0xFFFFFFFF

/-- Final xor (`Hasher::finalize`). -/
def crc32_finalize (state : Nat) : Nat := xor32 state 0xFFFFFFFF

/-- One-shot CRC-32 of a byte sequence (`crc32fast::hash`). -/
def crc32 (bytes : List Nat) : Nat :=
  crc32_finalize (crc32_append crc32_init bytes)

/-- Rust `u32::to_le_bytes`: the four little-endian bytes of a 32-bit value. -/
def to_le_bytes (h : Nat) : List Nat :=
  [h % 256, h / 256 % 256, h / 65536 % 256, h / 16777216 % 256]

/-- A socket address, represented at the interface the ring uses it
through: the textual (Display) form of its IP address and its port.
`SocketAddr` in the source only ever reaches the hash through
`write!("{}", node.ip())` and `write!("{}", node.port())`. -/
structure SocketAddr where
  ip : String
  port : Nat
deriving DecidableEq

/-- ASCII bytes of a string (all addresses and ports are ASCII). -/
def strBytes (s : String) : List Nat := s.data.map Char.toNat

/-- Decimal ASCII digits of a natural number, fuelled for structural
recursion (fuel `n + 1` always suffices). -/
def decDigits : Nat → Nat → List Nat
  | 0, _ => []
  | fuel + 1, n => if n < 10 then [48 + n] else decDigits fuel (n / 10) ++ [48 + n % 10]

/-- Decimal textual form of a port, as bytes (`write!("{}", port)`). -/
def decimalBytes (n : Nat) : List Nat := decDigits (n + 1) n

/-- The stable identity encoding of a node hashed during ring build:
IP text, one NUL separator byte, port text
(`write!(ip)`, `write!("\0")`, `write!(port)`). -/
def identity_bytes (a : SocketAddr) : List Nat :=
  strBytes a.ip ++ [0] ++ decimalBytes a.port

/-- A weighted node (`struct Bucket`). -/
structure Bucket where
  node : SocketAddr
  weight : Nat
deriving DecidableEq

/-- Model of `Bucket::new`, which asserts `weight > 0` ("weight should be positive");
the assertion failure is modelled as `none`. -/
def Bucket.new (node : SocketAddr) (weight : Nat) : Option Bucket :=
  if 0 < weight then some ⟨node, weight⟩ else none

/-- A virtual point on the ring (`struct Point`). -/
structure Point where
  node_index : Nat
  hash : Nat
deriving DecidableEq

/-- Ordered insertion by a hash projection; used to model
`ring.sort_unstable()` (whose comparator is `Ord for Point`, comparing
hashes only). -/
def insertHash (hf : α → Nat) (x : α) : List α → List α
  | [] => [x]
  | y :: l => if hf x ≤ hf y then x :: y :: l else y :: insertHash hf x l

/-- Sort ascending by a hash projection (`ring.sort_unstable()`). -/
def sortHash (hf : α → Nat) : List α → List α
  | [] => []
  | x :: l => insertHash hf x (sortHash hf l)

/-- Adjacent deduplication keeping the first of each equal-hash run,
comparing each element against the last retained one
(`ring.dedup_by(|a, b| a.hash == b.hash)`). -/
def dedupRun (hf : α → Nat) : α → List α → List α
  | a, [] => [a]
  | a, b :: l => if hf a = hf b then dedupRun hf a l else a :: dedupRun hf b l

/-- Top level of `dedup_by`. -/
def dedupHash (hf : α → Nat) : List α → List α
  | [] => []
  | a :: l => dedupRun hf a l

/-- The virtual-point chain of one bucket: starting from CRC state
`base` (the identity bytes already hashed) and `prev` (initially 0),
each point hashes a clone of the base state extended with the
little-endian bytes of `prev`, and feeds its own hash forward. -/
def gen_points (base : Nat) (node_index : Nat) : Nat → Nat → List Point
  | 0, _ => []
  | n + 1, prev =>
    let h := crc32_finalize (crc32_append base (to_le_bytes prev))
    ⟨node_index, h⟩ :: gen_points base node_index n h

/-- CRC state after hashing a bucket's identity bytes
(`hasher.update(&hash_bytes)`). -/
def bucket_base (b : Bucket) : Nat :=
  crc32_append crc32_init (identity_bytes b.node)

/-- All `num_virtual_points * weight` points of the bucket at input
position `i`. -/
def bucket_points (i : Nat) (b : Bucket) (vpp : Nat) : List Point :=
  gen_points (bucket_base b) i (vpp * b.weight) 0

/-- The flat, unsorted point list produced by the construction loop,
with node indices counting up from `i`. -/
def all_points_from (vpp : Nat) : Nat → List Bucket → List Point
  | _, [] => []
  | i, b :: bs => bucket_points i b vpp ++ all_points_from vpp (i + 1) bs

/-- The hashing ring (`struct Continuum`). -/
structure Continuum where
  ring : List Point
  addrs : List SocketAddr
deriving DecidableEq

/-- Model of `Continuum::new`: empty input yields the empty ring; otherwise push
every bucket's address (its position is its `node_index`), generate all
virtual points, sort by hash and deduplicate adjacent equal hashes. -/
def Continuum.new (buckets : List Bucket) (vpp : Nat) : Continuum :=
  if buckets.isEmpty then ⟨[], []⟩
  else
    ⟨dedupHash Point.hash (sortHash Point.hash (all_points_from vpp 0 buckets)),
     buckets.map Bucket.node⟩

/-- Model of `Continuum::with_default_points` (`DEFAULT_NUM_VIRTUAL_POINTS` is 160). -/
def Continuum.with_default_points (buckets : List Bucket) : Continuum :=
  Continuum.new buckets 160

/-- Index of the first entry with hash `≥ h`, or the length if none.
On the sorted, hash-unique rings `Continuum::new` produces, this is
exactly what `ring.binary_search_by(|p| p.hash.cmp(&hash))` computes:
`Ok(i)` is the unique matching index and `Err(i)` the insertion point. -/
def lowerBoundHash (hf : α → Nat) : List α → Nat → Nat
  | [], _ => 0
  | p :: t, h => if h ≤ hf p then 0 else lowerBoundHash hf t h + 1

/-- Model of `Continuum::node_idx`: CRC the key, lower-bound search, wrap to 0
when the hash exceeds every point. -/
def Continuum.node_idx (c : Continuum) (input : List Nat) : Nat :=
  let hash := crc32 input
  let i := lowerBoundHash Point.hash c.ring hash
  if i = c.ring.length then 0 else i

/-- Fallback address used to model the panicking index
`self.addrs[x.node_index]`; never reached on constructed rings, whose
node indices are always in bounds. -/
def fallbackAddr : SocketAddr := ⟨"", 0⟩

/-- Model of `Continuum::node`: primary lookup. -/
def Continuum.node (c : Continuum) (hash_key : List Nat) : Option SocketAddr :=
  (c.ring.get? (c.node_idx hash_key)).map
    (fun p => c.addrs.getD p.node_index fallbackAddr)

/-- Model of `Continuum::get_addr`: yield the address owning the current point
and advance the cursor to `(cursor + 1) % ring.len()`; on an empty ring
the cursor is untouched and nothing is yielded (the modulus is guarded
by `point.is_some()` in the source). -/
def Continuum.get_addr (c : Continuum) (point_index : Nat) :
    Option SocketAddr × Nat :=
  match c.ring.get? point_index with
  | none => (none, point_index)
  | some p =>
    (some (c.addrs.getD p.node_index fallbackAddr),
     (point_index + 1) % c.ring.length)

/-- Model of `Continuum::node_iter`: the iterator's starting cursor (a
`NodeIterator` is a cursor plus a borrow of the continuum, so its state
here is just the cursor; `NodeIterator::next` is `get_addr`). -/
def Continuum.node_iter (c : Continuum) (hash_key : List Nat) : Nat :=
  c.node_idx hash_key

/-- Cursor after `n` calls of `NodeIterator::next` from state `s`. -/
def Continuum.advanceN (c : Continuum) : Nat → Nat → Nat
  | 0, s => s
  | n + 1, s => c.advanceN n (c.get_addr s).2

/-- The two-node sample from the `matches_nginx_sample` test. -/
def addr7777 : SocketAddr := ⟨"127.0.0.1", 7777⟩

/-- Second node of the nginx sample. -/
def addr7778 : SocketAddr := ⟨"127.0.0.1", 7778⟩

/-- The ring from the `matches_nginx_sample` test: two weight-1 nodes at
the default 160 virtual points per weight. -/
def nginx_ring : Continuum :=
  Continuum.with_default_points [⟨addr7777, 1⟩, ⟨addr7778, 1⟩]

/-!  Basic lemmas about the construction.  -/

theorem crc32_append_append (s : Nat) (xs ys : List Nat) :
    crc32_append s (xs ++ ys) = crc32_append (crc32_append s xs) ys :=
  List.foldl_append _ _ _ _

theorem gen_points_length (base i : Nat) :
    ∀ n prev, (gen_points base i n prev).length = n := by
  intro n
  induction n with
  | zero => intro prev; rfl
  | succ m ih => intro prev; simp [gen_points, ih]

theorem gen_points_index (base i : Nat) :
    ∀ n prev p, p ∈ gen_points base i n prev → p.node_index = i := by
  intro n
  induction n with
  | zero => intro prev p hp; simp [gen_points] at hp
  | succ m ih =>
    intro prev p hp
    simp only [gen_points, List.mem_cons] at hp
    rcases hp with h | h
    · rw [h]
    · exact ih _ p h

theorem lowerBoundHash_le_length (hf : α → Nat) :
    ∀ (l : List α) (h : Nat), lowerBoundHash hf l h ≤ l.length := by
  intro l
  induction l with
  | nil => intro h; simp [lowerBoundHash]
  | cons p t ih =>
    intro h
    simp only [lowerBoundHash, List.length_cons]
    split
    · omega
    · exact Nat.succ_le_succ (ih h)

theorem node_idx_lt_length (c : Continuum) (key : List Nat)
    (hne : c.ring ≠ []) : c.node_idx key < c.ring.length := by
  have hlen : 0 < c.ring.length := List.length_pos.mpr hne
  have hle := lowerBoundHash_le_length Point.hash c.ring (crc32 key)
  show (if lowerBoundHash Point.hash c.ring (crc32 key) = c.ring.length then 0
        else lowerBoundHash Point.hash c.ring (crc32 key)) < c.ring.length
  split
  · exact hlen
  · omega

/-- C6: building a ring from the empty node list is not an error: every
lookup is absent, and the failover advance (`get_addr`) always yields
nothing while leaving the cursor untouched, no matter how often it is
called. -/
theorem empty_ring_absent (vpp : Nat) (key : List Nat) (s n : Nat) :
    (Continuum.new [] vpp).node key = none ∧
    (Continuum.new [] vpp).get_addr s = (none, s) ∧
    (Continuum.new [] vpp).advanceN n s = s := by
  have hring : (Continuum.new [] vpp) = ⟨[], []⟩ := rfl
  refine ⟨?_, ?_, ?_⟩
  · simp [Continuum.node, hring]
  · simp [Continuum.get_addr, hring]
  · induction n generalizing s with
    | zero => rfl
    | succ m ih =>
      show (Continuum.new [] vpp).advanceN m ((Continuum.new [] vpp).get_addr s).2 = s
      have : (Continuum.new [] vpp).get_addr s = (none, s) := by
        simp [Continuum.get_addr, hring]
      rw [this]
      exact ih s

/-- C7: node construction fails exactly when the weight is ≤ 0 (for the
unsigned weight this means 0), and succeeds for every positive weight. -/
theorem bucket_new_invalid_weight (a : SocketAddr) (w : Nat) :
    (Bucket.new a w = none ↔ w ≤ 0) ∧
    (0 < w → Bucket.new a w = some ⟨a, w⟩) := by
  constructor
  · unfold Bucket.new
    split
    · simp; omega
    · simp; omega
  · intro hw
    unfold Bucket.new
    simp [hw]

/-- C7 witness. -/
theorem bucket_new_invalid_weight_wit :
    (Bucket.new addr7777 0 = none ↔ (0 : Nat) ≤ 0) ∧
    Bucket.new addr7777 3 = some ⟨addr7777, 3⟩ :=
  ⟨(bucket_new_invalid_weight addr7777 0).1,
   (bucket_new_invalid_weight addr7777 3).2 (by decide)⟩

/-- C8: the constructed address table is exactly the input node
addresses in input order (each input entry, duplicates included, is an
independent node), so its length is the number of input nodes. -/
theorem addrs_eq_input (buckets : List Bucket) (vpp : Nat) :
    (Continuum.new buckets vpp).addrs = buckets.map Bucket.node ∧
    (Continuum.new buckets vpp).addrs.length = buckets.length := by
  have h : (Continuum.new buckets vpp).addrs = buckets.map Bucket.node := by
    unfold Continuum.new
    split
    · rename_i hb
      simp only [List.isEmpty_iff] at hb
      simp [hb]
    · rfl
  exact ⟨h, by rw [h, List.length_map]⟩

/-- Lookup as §4.3 of the spec words it: hash the key, absent on an
empty point array, otherwise the first entry with `hash ≥ h` (wrapping
to index 0 when there is none) resolved through the address table. -/
def lookup_spec (c : Continuum) (key : List Nat) : Option SocketAddr :=
  let h := crc32 key
  if c.ring.isEmpty then none
  else
    let idx := (c.ring.findIdx? (fun p => decide (h ≤ p.hash))).getD 0
    (c.ring.get? idx).map (fun p => c.addrs.getD p.node_index fallbackAddr)

theorem findIdx_eq_lowerBound (hf : α → Nat) (h : Nat) :
    ∀ l : List α,
      l.findIdx? (fun p => decide (h ≤ hf p)) =
        if lowerBoundHash hf l h = l.length then none
        else some (lowerBoundHash hf l h) := by
  intro l
  induction l with
  | nil => simp [lowerBoundHash]
  | cons p t ih =>
    simp only [List.findIdx?_cons, lowerBoundHash, List.length_cons]
    by_cases hp : h ≤ hf p
    · simp [hp]
    · have h1 : t.findIdx? (fun p => decide (h ≤ hf p)) (0 + 1) =
          (t.findIdx? (fun p => decide (h ≤ hf p))).map (fun i => i + 1) :=
        List.findIdx?_succ
      simp only [hp, decide_eq_true_eq, if_false]
      rw [h1, ih]
      by_cases he : lowerBoundHash hf t h = t.length
      · simp [he]
      · have : ¬(lowerBoundHash hf t h + 1 = t.length + 1) := by omega
        simp [he, this]

/-- C2: for every ring and key, the lookup result is exactly what the
spec describes: `h = CRC32(key)`; absent on an empty point array;
otherwise the first point with `hash ≥ h`, wrapping to index 0 when `h`
exceeds every point's hash, resolved through
`addresses[points[idx].node_index]`. -/
theorem node_eq_lookup_spec (c : Continuum) (key : List Nat) :
    c.node key = lookup_spec c key := by
  unfold Continuum.node Continuum.node_idx lookup_spec
  rcases hr : c.ring with _ | ⟨p, t⟩
  · simp [lowerBoundHash]
  · have hne : c.ring ≠ [] := by rw [hr]; simp
    rw [← hr]
    have hemp : c.ring.isEmpty = false := by rw [hr]; rfl
    rw [hemp]
    simp only [Bool.false_eq_true, if_false]
    rw [findIdx_eq_lowerBound Point.hash (crc32 key) c.ring]
    by_cases he : lowerBoundHash Point.hash c.ring (crc32 key) = c.ring.length
    · simp [he]
    · simp [he]

theorem get_addr_of_get? (c : Continuum) (i : Nat) (p : Point)
    (hp : c.ring.get? i = some p) :
    c.get_addr i =
      (some (c.addrs.getD p.node_index fallbackAddr),
       (i + 1) % c.ring.length) := by
  unfold Continuum.get_addr
  rw [hp]

theorem get_addr_cursor (c : Continuum) (i : Nat) (hi : i < c.ring.length) :
    (c.get_addr i).2 = (i + 1) % c.ring.length ∧ (c.get_addr i).1.isSome := by
  rcases List.get?_eq_get hi with h
  rw [get_addr_of_get? c i _ h]
  exact ⟨rfl, rfl⟩

theorem advanceN_mod (c : Continuum) (hne : c.ring ≠ []) :
    ∀ n s, s < c.ring.length →
      c.advanceN n s = (s + n) % c.ring.length := by
  have hlen : 0 < c.ring.length := List.length_pos.mpr hne
  intro n
  induction n with
  | zero =>
    intro s hs
    show s = (s + 0) % c.ring.length
    rw [Nat.add_zero, Nat.mod_eq_of_lt hs]
  | succ m ih =>
    intro s hs
    show c.advanceN m (c.get_addr s).2 = (s + (m + 1)) % c.ring.length
    rw [(get_addr_cursor c s hs).1]
    have hlt : (s + 1) % c.ring.length < c.ring.length := Nat.mod_lt _ hlen
    rw [ih _ hlt, Nat.mod_add_mod]
    congr 1
    omega

/-- C3: on a non-empty ring, from any valid starting cursor, exactly
`points.length` advances bring the cursor back to its start, and every
advance along the way yields an address. -/
theorem full_cycle_iteration (c : Continuum) (idx : Nat)
    (hne : c.ring ≠ []) (hidx : idx < c.ring.length) :
    c.advanceN c.ring.length idx = idx ∧
    ∀ n, (c.get_addr (c.advanceN n idx)).1.isSome := by
  have hlen : 0 < c.ring.length := List.length_pos.mpr hne
  constructor
  · rw [advanceN_mod c hne _ _ hidx, Nat.add_mod_right, Nat.mod_eq_of_lt hidx]
  · intro n
    rw [advanceN_mod c hne _ _ hidx]
    exact (get_addr_cursor c _ (Nat.mod_lt _ hlen)).2

/-- C3 witness: a one-bucket, one-point ring. -/
theorem full_cycle_iteration_wit :
    (Continuum.new [⟨addr7777, 1⟩] 1).advanceN
        (Continuum.new [⟨addr7777, 1⟩] 1).ring.length 0 = 0 ∧
    ((Continuum.new [⟨addr7777, 1⟩] 1).get_addr
        ((Continuum.new [⟨addr7777, 1⟩] 1).advanceN 5 0)).1.isSome :=
  ⟨(full_cycle_iteration (Continuum.new [⟨addr7777, 1⟩] 1) 0 (by decide)
      (by decide)).1,
   (full_cycle_iteration (Continuum.new [⟨addr7777, 1⟩] 1) 0 (by decide)
      (by decide)).2 5⟩

/-- C5: the failover iterator starts at the primary lookup index for the
key; on a non-empty ring its first yield is the primary lookup result,
and each advance yields the address owning the current point before
moving the cursor to `(cursor + 1) mod points.length`. -/
theorem iterator_starts_at_primary (c : Continuum) (key : List Nat)
    (hne : c.ring ≠ []) :
    c.node_iter key = c.node_idx key ∧
    (c.get_addr (c.node_iter key)).1 = c.node key ∧
    ∀ i p, c.ring.get? i = some p →
      c.get_addr i =
        (some (c.addrs.getD p.node_index fallbackAddr),
         (i + 1) % c.ring.length) := by
  refine ⟨rfl, ?_, fun i p hp => get_addr_of_get? c i p hp⟩
  have hlt : c.node_idx key < c.ring.length := node_idx_lt_length c key hne
  rcases List.get?_eq_get hlt with h
  rw [Continuum.node_iter, get_addr_of_get? c _ _ h]
  unfold Continuum.node
  rw [h]
  rfl

/-- C5 witness: a small one-bucket ring and the key `"/g"`. -/
theorem iterator_starts_at_primary_wit :
    (Continuum.new [⟨addr7777, 1⟩] 1).node_iter (strBytes "/g") =
      (Continuum.new [⟨addr7777, 1⟩] 1).node_idx (strBytes "/g") ∧
    ((Continuum.new [⟨addr7777, 1⟩] 1).get_addr
        ((Continuum.new [⟨addr7777, 1⟩] 1).node_iter (strBytes "/g"))).1 =
      (Continuum.new [⟨addr7777, 1⟩] 1).node (strBytes "/g") :=
  ⟨(iterator_starts_at_primary (Continuum.new [⟨addr7777, 1⟩] 1)
      (strBytes "/g") (by decide)).1,
   (iterator_starts_at_primary (Continuum.new [⟨addr7777, 1⟩] 1)
      (strBytes "/g") (by decide)).2.1⟩

/-- The hash chain of a node as the code actually computes it: every
point's hash, the first one included, is the CRC-32 of the identity
bytes followed by the little-endian bytes of the previous hash, where
the previous hash starts at 0 (`let mut prev_hash = 0u32`). -/
def chainHash (a : SocketAddr) : Nat → Nat
  | 0 => crc32 (identity_bytes a ++ to_le_bytes 0)
  | k + 1 => crc32 (identity_bytes a ++ to_le_bytes (chainHash a k))

/-- Previous-hash value fed into point number `j` of a chain. -/
def chainPrev (a : SocketAddr) : Nat → Nat
  | 0 => 0
  | j + 1 => chainHash a j

theorem crc32_of_identity_append (a : SocketAddr) (bs : List Nat) :
    crc32_finalize (crc32_append (crc32_append crc32_init (identity_bytes a)) bs) =
      crc32 (identity_bytes a ++ bs) := by
  unfold crc32
  rw [crc32_append_append]

theorem chainHash_step (a : SocketAddr) (j : Nat) :
    crc32_finalize (crc32_append (crc32_append crc32_init (identity_bytes a))
        (to_le_bytes (chainPrev a j))) = chainHash a j := by
  cases j with
  | zero => rw [crc32_of_identity_append]; rfl
  | succ k => rw [crc32_of_identity_append]; rfl

theorem gen_points_eq_chain (b : Bucket) (i : Nat) :
    ∀ n j, gen_points (bucket_base b) i n (chainPrev b.node j) =
      (List.range n).map (fun k => ⟨i, chainHash b.node (j + k)⟩) := by
  intro n
  induction n with
  | zero => intro j; rfl
  | succ m ih =>
    intro j
    show (⟨i, crc32_finalize (crc32_append (bucket_base b)
            (to_le_bytes (chainPrev b.node j)))⟩ : Point) ::
          gen_points (bucket_base b) i m
            (crc32_finalize (crc32_append (bucket_base b)
              (to_le_bytes (chainPrev b.node j)))) =
        (List.range (m + 1)).map (fun k => ⟨i, chainHash b.node (j + k)⟩)
    have hstep : crc32_finalize (crc32_append (bucket_base b)
        (to_le_bytes (chainPrev b.node j))) = chainHash b.node j :=
      chainHash_step b.node j
    rw [hstep]
    have htail : gen_points (bucket_base b) i m (chainHash b.node j) =
        (List.range m).map (fun k => ⟨i, chainHash b.node (j + k + 1)⟩) := by
      have hih := ih (j + 1)
      rw [show chainPrev b.node (j + 1) = chainHash b.node j from rfl] at hih
      rw [hih]
      refine List.map_congr_left ?_
      intro k hk
      have : j + 1 + k = j + k + 1 := by omega
      rw [this]
    rw [List.range_succ_eq_map, List.map_cons, List.map_map, htail]
    rfl

/-- C1 counterexample: in the one-node, one-point ring, the single
(first) point's hash is not the CRC-32 of the node's identity bytes
alone; the code mixes in the little-endian bytes of the initial
`prev_hash = 0` before finalizing. -/
theorem first_point_hash_counterexample :
    ((Continuum.new [⟨addr7777, 1⟩] 1).ring.map Point.hash).head? ≠
      some (crc32 (identity_bytes addr7777)) := by decide

/-- The generated points of a bucket are exactly the chain
`chainHash` enumerated over `0, ..., weight * vpp - 1`. -/
theorem bucket_points_chain_eq (i vpp : Nat) (b : Bucket) :
    (bucket_points i b vpp).length = vpp * b.weight ∧
    bucket_points i b vpp =
      (List.range (vpp * b.weight)).map (fun k => ⟨i, chainHash b.node k⟩) := by
  constructor
  · exact gen_points_length _ _ _ _
  · have h := gen_points_eq_chain b i (vpp * b.weight) 0
    rw [show chainPrev b.node 0 = 0 from rfl] at h
    rw [bucket_points, h]
    simp

/-- C1 (amended): each node's `weight × virtual_points_per_weight`
virtual points are generated by hash chaining where every point's hash,
the first one included, is the CRC-32 of the identity bytes followed by
the little-endian bytes of the previous point's hash, the previous hash
of the first point being 0. -/
theorem bucket_points_hash_chain (i vpp : Nat) (b : Bucket) :
    (bucket_points i b vpp).length = vpp * b.weight ∧
    bucket_points i b vpp =
      (List.range (vpp * b.weight)).map
        (fun k => ⟨i, chainHash b.node k⟩) :=
  bucket_points_chain_eq i vpp b

/-!  Sortedness and deduplication invariants.  -/

theorem mem_insertHash (hf : α → Nat) (x p : α) :
    ∀ l, p ∈ insertHash hf x l ↔ p = x ∨ p ∈ l := by
  intro l
  induction l with
  | nil => simp [insertHash]
  | cons y t ih =>
    simp only [insertHash]
    split
    · simp only [List.mem_cons]
    · simp only [List.mem_cons, ih]
      tauto

theorem insertHash_pairwise (hf : α → Nat) (x : α) :
    ∀ l, List.Pairwise (fun a b => hf a ≤ hf b) l →
      List.Pairwise (fun a b => hf a ≤ hf b) (insertHash hf x l) := by
  intro l
  induction l with
  | nil => intro _; simp [insertHash]
  | cons y t ih =>
    intro hp
    rcases List.pairwise_cons.mp hp with ⟨hy, ht⟩
    simp only [insertHash]
    split
    · rename_i hxy
      refine List.pairwise_cons.mpr ⟨?_, hp⟩
      intro q hq
      rcases List.mem_cons.mp hq with h | h
      · rw [h]; exact hxy
      · exact Nat.le_trans hxy (hy q h)
    · rename_i hxy
      refine List.pairwise_cons.mpr ⟨?_, ih ht⟩
      intro q hq
      rcases (mem_insertHash hf x q t).mp hq with h | h
      · rw [h]; omega
      · exact hy q h

theorem sortHash_pairwise (hf : α → Nat) :
    ∀ l, List.Pairwise (fun a b => hf a ≤ hf b) (sortHash hf l) := by
  intro l
  induction l with
  | nil => simp [sortHash]
  | cons x t ih => exact insertHash_pairwise hf x _ ih

theorem mem_sortHash (hf : α → Nat) (p : α) :
    ∀ l, p ∈ sortHash hf l ↔ p ∈ l := by
  intro l
  induction l with
  | nil => simp [sortHash]
  | cons x t ih =>
    simp only [sortHash, mem_insertHash, ih, List.mem_cons]

theorem mem_dedupRun_sub (hf : α → Nat) (p : α) :
    ∀ l a, p ∈ dedupRun hf a l → p = a ∨ p ∈ l := by
  intro l
  induction l with
  | nil => intro a hp; simp [dedupRun] at hp; exact Or.inl hp
  | cons b t ih =>
    intro a hp
    simp only [dedupRun] at hp
    split at hp
    · rcases ih a hp with h | h
      · exact Or.inl h
      · exact Or.inr (List.mem_cons_of_mem b h)
    · rcases List.mem_cons.mp hp with h | h
      · exact Or.inl h
      · rcases ih b h with h2 | h2
        · exact Or.inr (h2 ▸ List.mem_cons_self b t)
        · exact Or.inr (List.mem_cons_of_mem b h2)

theorem dedupRun_pairwise (hf : α → Nat) :
    ∀ l a, List.Pairwise (fun x y => hf x ≤ hf y) (a :: l) →
      List.Pairwise (fun x y => hf x < hf y) (dedupRun hf a l) := by
  intro l
  induction l with
  | nil => intro a _; simp [dedupRun]
  | cons b t ih =>
    intro a hp
    rcases List.pairwise_cons.mp hp with ⟨ha, hbt⟩
    rcases List.pairwise_cons.mp hbt with ⟨hb, ht⟩
    simp only [dedupRun]
    split
    · rename_i hab
      refine ih a (List.pairwise_cons.mpr ⟨?_, ht⟩)
      intro q hq
      exact Nat.le_trans (ha b (List.mem_cons_self b t)) (hb q hq)
    · rename_i hab
      refine List.pairwise_cons.mpr ⟨?_, ih b hbt⟩
      intro q hq
      have hle_ab : hf a ≤ hf b := ha b (List.mem_cons_self b t)
      have hlt_ab : hf a < hf b := Nat.lt_of_le_of_ne hle_ab hab
      rcases mem_dedupRun_sub hf q t b hq with h | h
      · rw [h]; exact hlt_ab
      · exact Nat.lt_of_lt_of_le hlt_ab (hb q h)

theorem dedupHash_pairwise (hf : α → Nat) (l : List α)
    (hp : List.Pairwise (fun x y => hf x ≤ hf y) l) :
    List.Pairwise (fun x y => hf x < hf y) (dedupHash hf l) := by
  cases l with
  | nil => simp [dedupHash]
  | cons a t => exact dedupRun_pairwise hf t a hp

theorem mem_dedupHash_sub (hf : α → Nat) (p : α) (l : List α)
    (hp : p ∈ dedupHash hf l) : p ∈ l := by
  cases l with
  | nil => simp [dedupHash] at hp
  | cons a t =>
    rcases mem_dedupRun_sub hf p t a hp with h | h
    · exact h ▸ List.mem_cons_self a t
    · exact List.mem_cons_of_mem a h

theorem all_points_from_index_lt (vpp : Nat) :
    ∀ (bs : List Bucket) (i : Nat) (p : Point),
      p ∈ all_points_from vpp i bs → p.node_index < i + bs.length := by
  intro bs
  induction bs with
  | nil => intro i p hp; simp [all_points_from] at hp
  | cons b t ih =>
    intro i p hp
    simp only [all_points_from, List.mem_append] at hp
    rcases hp with h | h
    · have := gen_points_index (bucket_base b) i _ _ p h
      simp only [List.length_cons]
      omega
    · have := ih (i + 1) p h
      simp only [List.length_cons]
      omega

/-- C4: every constructed ring has its point array strictly ascending by
hash (hence all hashes distinct), and every point's node index is a
valid index into the address table. -/
theorem ring_invariants (buckets : List Bucket) (vpp : Nat) :
    List.Pairwise (fun p q : Point => p.hash < q.hash)
      (Continuum.new buckets vpp).ring ∧
    ∀ p ∈ (Continuum.new buckets vpp).ring,
      p.node_index < (Continuum.new buckets vpp).addrs.length := by
  rw [Continuum.new]
  split
  · exact ⟨List.Pairwise.nil, by intro p hp; simp at hp⟩
  · constructor
    · exact dedupHash_pairwise Point.hash _ (sortHash_pairwise Point.hash _)
    · intro p hp
      have h1 : p ∈ sortHash Point.hash (all_points_from vpp 0 buckets) :=
        mem_dedupHash_sub Point.hash p _ hp
      have h2 : p ∈ all_points_from vpp 0 buckets :=
        (mem_sortHash Point.hash p _).mp h1
      have h3 := all_points_from_index_lt vpp buckets 0 p h2
      simp only [List.length_map]
      omega


/-!  Permutation facts about the sort, and the uniqueness of a strictly
sorted list in its permutation class.  -/

theorem insertHash_perm (hf : α → Nat) (x : α) :
    ∀ l, (insertHash hf x l).Perm (x :: l) := by
  intro l
  induction l with
  | nil => simp [insertHash]
  | cons y t ih =>
    simp only [insertHash]
    split
    · exact List.Perm.refl _
    · exact (List.Perm.cons y ih).trans (List.Perm.swap x y t)

theorem sortHash_perm (hf : α → Nat) :
    ∀ l, (sortHash hf l).Perm l := by
  intro l
  induction l with
  | nil => simp [sortHash]
  | cons x t ih =>
    exact (insertHash_perm hf x (sortHash hf t)).trans (List.Perm.cons x ih)

theorem pairwise_lt_of_le_nodup (hf : α → Nat) :
    ∀ l, List.Pairwise (fun a b => hf a ≤ hf b) l →
      (l.map hf).Nodup →
      List.Pairwise (fun a b => hf a < hf b) l := by
  intro l
  induction l with
  | nil => intro _ _; exact List.Pairwise.nil
  | cons a t ih =>
    intro hle hnd
    rcases List.pairwise_cons.mp hle with ⟨ha, ht⟩
    rw [List.map_cons, List.nodup_cons] at hnd
    refine List.pairwise_cons.mpr ⟨?_, ih ht hnd.2⟩
    intro b hb
    have h1 : hf a ≤ hf b := ha b hb
    have h2 : hf a ≠ hf b := by
      intro he
      exact hnd.1 (he ▸ List.mem_map_of_mem hf hb)
    omega

theorem dedupRun_of_lt (hf : α → Nat) :
    ∀ (t : List α) (a : α), (∀ x ∈ t, hf a < hf x) →
      List.Pairwise (fun x y => hf x < hf y) t →
      dedupRun hf a t = a :: t := by
  intro t
  induction t with
  | nil => intro a _ _; rfl
  | cons b t ih =>
    intro a hlt hp
    have hab : hf a ≠ hf b :=
      Nat.ne_of_lt (hlt b (List.mem_cons_self b t))
    rcases List.pairwise_cons.mp hp with ⟨hb, ht⟩
    simp only [dedupRun, hab, if_false]
    rw [ih b hb ht]

theorem dedupHash_of_pairwise_lt (hf : α → Nat) (l : List α)
    (hp : List.Pairwise (fun x y => hf x < hf y) l) :
    dedupHash hf l = l := by
  cases l with
  | nil => rfl
  | cons a t =>
    rcases List.pairwise_cons.mp hp with ⟨ha, ht⟩
    exact dedupRun_of_lt hf t a ha ht

theorem eq_of_pairwise_lt_perm (hf : α → Nat) :
    ∀ (l₁ l₂ : List α), l₁.Perm l₂ →
      List.Pairwise (fun x y => hf x < hf y) l₁ →
      List.Pairwise (fun x y => hf x < hf y) l₂ →
      l₁ = l₂ := by
  intro l₁
  induction l₁ with
  | nil => intro l₂ hperm _ _; exact (hperm.nil_eq).symm ▸ rfl
  | cons a t₁ ih =>
    intro l₂ hperm hp₁ hp₂
    cases l₂ with
    | nil => exact absurd hperm.symm.nil_eq (by simp)
    | cons b t₂ =>
      rcases List.pairwise_cons.mp hp₁ with ⟨ha, ht₁⟩
      rcases List.pairwise_cons.mp hp₂ with ⟨hb, ht₂⟩
      have hab : a = b := by
        by_contra hne
        have hmem_a : a ∈ b :: t₂ := hperm.subset (List.mem_cons_self a t₁)
        have hmem_b : b ∈ a :: t₁ := hperm.symm.subset (List.mem_cons_self b t₂)
        have h1 : hf b < hf a := by
          rcases List.mem_cons.mp hmem_a with h | h
          · exact absurd h hne
          · exact hb a h
        have h2 : hf a < hf b := by
          rcases List.mem_cons.mp hmem_b with h | h
          · exact absurd h.symm hne
          · exact ha b h
        omega
      subst hab
      have htp : t₁.Perm t₂ := hperm.cons_inv
      rw [ih t₂ htp ht₁ ht₂]

/-- If `s` is strictly sorted by hash and `l` is a permutation of `s`,
then sorting `l` and removing adjacent duplicate hashes yields exactly
`s`. -/
theorem dedup_sort_eq_of_sorted_perm (hf : α → Nat) (l s : List α)
    (hs : List.Pairwise (fun x y => hf x < hf y) s)
    (hperm : l.Perm s) :
    dedupHash hf (sortHash hf l) = s := by
  have hperm2 : (sortHash hf l).Perm s := (sortHash_perm hf l).trans hperm
  have hnd : ((sortHash hf l).map hf).Nodup := by
    have hs_nd : (s.map hf).Nodup := by
      have : (s.map hf).Pairwise (· < ·) := List.pairwise_map.mpr hs
      exact List.Pairwise.imp Nat.ne_of_lt this
    exact (hperm2.map hf).nodup_iff.mpr hs_nd
  have hlt : List.Pairwise (fun x y => hf x < hf y) (sortHash hf l) :=
    pairwise_lt_of_le_nodup hf _ (sortHash_pairwise hf l) hnd
  rw [dedupHash_of_pairwise_lt hf _ hlt]
  exact eq_of_pairwise_lt_perm hf _ _ hperm2 hlt hs


/-!  The concrete nginx sample ring (two weight-1 IPv4 nodes, default
160 points per weight), checkpointed as literal point lists so that the
kernel never has to re-evaluate chained CRC thunks.  -/

/-- Virtual points of `127.0.0.1:7777` at node index 0 (computed by the
hash chain of §4.2; verified against the chain below). -/
def nginxPts1 : List Point := [(Point.mk 0 842782624), (Point.mk 0 66278312), (Point.mk 0 1921422695), (Point.mk 0 3166719452), (Point.mk 0 802613243), (Point.mk 0 3007504355), (Point.mk 0 3758326986), (Point.mk 0 1188092709), (Point.mk 0 982283207), (Point.mk 0 3727481315), (Point.mk 0 754164660), (Point.mk 0 1985754057), (Point.mk 0 2956716980), (Point.mk 0 4065291672), (Point.mk 0 781354594), (Point.mk 0 3641535053), (Point.mk 0 1420037515), (Point.mk 0 2799081929), (Point.mk 0 594252055), (Point.mk 0 659204447), (Point.mk 0 3630218335), (Point.mk 0 2162490977), (Point.mk 0 3646008532), (Point.mk 0 398482191), (Point.mk 0 1117279278), (Point.mk 0 942254447), (Point.mk 0 3952308591), (Point.mk 0 1777979579), (Point.mk 0 2228332547), (Point.mk 0 2232666097), (Point.mk 0 1681658010), (Point.mk 0 3318524334), (Point.mk 0 3311890692), (Point.mk 0 702056911), (Point.mk 0 4188200580), (Point.mk 0 2403826213), (Point.mk 0 1049502297), (Point.mk 0 3684085096), (Point.mk 0 722723007), (Point.mk 0 328982814), (Point.mk 0 1020682132), (Point.mk 0 2683623104), (Point.mk 0 3709000264), (Point.mk 0 1813236014), (Point.mk 0 3376664195), (Point.mk 0 1862931437), (Point.mk 0 799852335), (Point.mk 0 4159252145), (Point.mk 0 122743575), (Point.mk 0 2124238640), (Point.mk 0 3397668240), (Point.mk 0 3546766966), (Point.mk 0 791369044), (Point.mk 0 3246547774), (Point.mk 0 2374509988), (Point.mk 0 2934386727), (Point.mk 0 199511667), (Point.mk 0 2624952184), (Point.mk 0 3474826106), (Point.mk 0 422627164), (Point.mk 0 2620225868), (Point.mk 0 1632298618), (Point.mk 0 2885012747), (Point.mk 0 1417820714), (Point.mk 0 2986055576), (Point.mk 0 4189916146), (Point.mk 0 2265676832), (Point.mk 0 1607083746), (Point.mk 0 3091994592), (Point.mk 0 1683691738), (Point.mk 0 2054643019), (Point.mk 0 3403989612), (Point.mk 0 2420359283), (Point.mk 0 4047880464), (Point.mk 0 3053127042), (Point.mk 0 1071846542), (Point.mk 0 3886518294), (Point.mk 0 1701984998), (Point.mk 0 3355584417), (Point.mk 0 1567084965), (Point.mk 0 4221809081), (Point.mk 0 966297129), (Point.mk 0 3961837628), (Point.mk 0 1393081284), (Point.mk 0 950285638), (Point.mk 0 1284322889), (Point.mk 0 92713608), (Point.mk 0 3250563144), (Point.mk 0 885976059), (Point.mk 0 2988865330), (Point.mk 0 3742812379), (Point.mk 0 1445352530), (Point.mk 0 2036130048), (Point.mk 0 2781656823), (Point.mk 0 699053113), (Point.mk 0 1796602440), (Point.mk 0 958205872), (Point.mk 0 2222733843), (Point.mk 0 808730196), (Point.mk 0 3310503060), (Point.mk 0 336170406), (Point.mk 0 2026796702), (Point.mk 0 880760347), (Point.mk 0 1409402032), (Point.mk 0 3438412554), (Point.mk 0 3952641081), (Point.mk 0 3613714485), (Point.mk 0 1259976703), (Point.mk 0 1445005508), (Point.mk 0 3415219819), (Point.mk 0 3042162938), (Point.mk 0 976275295), (Point.mk 0 754952144), (Point.mk 0 1772401741), (Point.mk 0 1729601949), (Point.mk 0 1946069475), (Point.mk 0 1668002604), (Point.mk 0 1299514849), (Point.mk 0 1475464), (Point.mk 0 3846003066), (Point.mk 0 4015840302), (Point.mk 0 3506318920), (Point.mk 0 1386533503), (Point.mk 0 3227832065), (Point.mk 0 2323713451), (Point.mk 0 2407274947), (Point.mk 0 3149506300), (Point.mk 0 1254760600), (Point.mk 0 3583954753), (Point.mk 0 2451290186), (Point.mk 0 3135830435), (Point.mk 0 1793264226), (Point.mk 0 1991722391), (Point.mk 0 1981787616), (Point.mk 0 1104708156), (Point.mk 0 575496518), (Point.mk 0 1441137146), (Point.mk 0 3372726853), (Point.mk 0 4223789242), (Point.mk 0 529216989), (Point.mk 0 2447039978), (Point.mk 0 4067909336), (Point.mk 0 2218015085), (Point.mk 0 2167575215), (Point.mk 0 2926269866), (Point.mk 0 3455974937), (Point.mk 0 3837243538), (Point.mk 0 3972996737), (Point.mk 0 2495147350), (Point.mk 0 2786703296), (Point.mk 0 550665974), (Point.mk 0 1194941652), (Point.mk 0 412579635), (Point.mk 0 2893511345), (Point.mk 0 1905070891), (Point.mk 0 4064757018), (Point.mk 0 2537907586), (Point.mk 0 3625065852), (Point.mk 0 4157657746), (Point.mk 0 161398129)]

/-- Virtual points of `127.0.0.1:7778` at node index 1. -/
def nginxPts2 : List Point := [(Point.mk 1 2959818865), (Point.mk 1 1578765224), (Point.mk 1 136255570), (Point.mk 1 14414652), (Point.mk 1 3755529781), (Point.mk 1 2702672178), (Point.mk 1 2934707716), (Point.mk 1 3825679083), (Point.mk 1 1892636328), (Point.mk 1 1289918756), (Point.mk 1 2128308146), (Point.mk 1 2683919146), (Point.mk 1 3133348443), (Point.mk 1 1991585899), (Point.mk 1 1492343575), (Point.mk 1 1198359998), (Point.mk 1 2463326570), (Point.mk 1 435262133), (Point.mk 1 228387451), (Point.mk 1 191204145), (Point.mk 1 2596564414), (Point.mk 1 2995079611), (Point.mk 1 1724416267), (Point.mk 1 544157676), (Point.mk 1 3336104076), (Point.mk 1 2348015736), (Point.mk 1 4076466292), (Point.mk 1 2000670126), (Point.mk 1 303556087), (Point.mk 1 4073294330), (Point.mk 1 4276054410), (Point.mk 1 690806858), (Point.mk 1 2527320906), (Point.mk 1 1499003810), (Point.mk 1 2387424194), (Point.mk 1 97886810), (Point.mk 1 1107485548), (Point.mk 1 3235587085), (Point.mk 1 2230167796), (Point.mk 1 1862338497), (Point.mk 1 3217265183), (Point.mk 1 4254024118), (Point.mk 1 2252192997), (Point.mk 1 4089288868), (Point.mk 1 4106048568), (Point.mk 1 100331683), (Point.mk 1 3293083890), (Point.mk 1 1649370129), (Point.mk 1 3276619977), (Point.mk 1 2349780607), (Point.mk 1 1653320052), (Point.mk 1 4183052449), (Point.mk 1 867615305), (Point.mk 1 3373497792), (Point.mk 1 425225970), (Point.mk 1 3359901675), (Point.mk 1 3052425294), (Point.mk 1 145483633), (Point.mk 1 2355997885), (Point.mk 1 3142363347), (Point.mk 1 1402876115), (Point.mk 1 3175158860), (Point.mk 1 640949549), (Point.mk 1 2682941883), (Point.mk 1 3943308862), (Point.mk 1 2064683747), (Point.mk 1 119765212), (Point.mk 1 2798034298), (Point.mk 1 3812056383), (Point.mk 1 3577939603), (Point.mk 1 922634260), (Point.mk 1 1411122539), (Point.mk 1 3505797672), (Point.mk 1 941896457), (Point.mk 1 849612042), (Point.mk 1 3585219371), (Point.mk 1 4150382270), (Point.mk 1 2311651275), (Point.mk 1 955808601), (Point.mk 1 2863486147), (Point.mk 1 2458652583), (Point.mk 1 3803972575), (Point.mk 1 3396220167), (Point.mk 1 2412982836), (Point.mk 1 1071584788), (Point.mk 1 3346901910), (Point.mk 1 1660689440), (Point.mk 1 516955038), (Point.mk 1 2259706379), (Point.mk 1 3425128595), (Point.mk 1 993336437), (Point.mk 1 3935068505), (Point.mk 1 2559737199), (Point.mk 1 849653705), (Point.mk 1 1807143885), (Point.mk 1 3548138541), (Point.mk 1 132380322), (Point.mk 1 225946385), (Point.mk 1 2469155206), (Point.mk 1 1158693953), (Point.mk 1 2820996475), (Point.mk 1 2561428755), (Point.mk 1 1994608128), (Point.mk 1 106599581), (Point.mk 1 2892790223), (Point.mk 1 3545048726), (Point.mk 1 1317893757), (Point.mk 1 1712039491), (Point.mk 1 2736425942), (Point.mk 1 2714131164), (Point.mk 1 2175995520), (Point.mk 1 50042253), (Point.mk 1 1304825302), (Point.mk 1 776042626), (Point.mk 1 2557310114), (Point.mk 1 712400879), (Point.mk 1 4215893812), (Point.mk 1 2273147970), (Point.mk 1 902844619), (Point.mk 1 2853177082), (Point.mk 1 570200743), (Point.mk 1 1780528060), (Point.mk 1 406085118), (Point.mk 1 451999655), (Point.mk 1 964828255), (Point.mk 1 1619621712), (Point.mk 1 2368435036), (Point.mk 1 2189304982), (Point.mk 1 2769200705), (Point.mk 1 1980310546), (Point.mk 1 496721433), (Point.mk 1 183198934), (Point.mk 1 2715092721), (Point.mk 1 3617779493), (Point.mk 1 29299196), (Point.mk 1 1969595080), (Point.mk 1 3783988679), (Point.mk 1 1315333179), (Point.mk 1 2052914331), (Point.mk 1 3223987738), (Point.mk 1 1191232320), (Point.mk 1 1345250406), (Point.mk 1 1621215242), (Point.mk 1 3133442845), (Point.mk 1 2069525386), (Point.mk 1 3820739917), (Point.mk 1 1651941955), (Point.mk 1 972021928), (Point.mk 1 397788688), (Point.mk 1 1865490982), (Point.mk 1 363551078), (Point.mk 1 3982851160), (Point.mk 1 621344559), (Point.mk 1 2070725635), (Point.mk 1 988241180), (Point.mk 1 435398956), (Point.mk 1 3621530790), (Point.mk 1 3691410504), (Point.mk 1 1678559574), (Point.mk 1 639195021)]

/-- The sorted, deduplicated ring of the two-node sample. -/
def nginxSorted : List Point := [(Point.mk 0 1475464), (Point.mk 1 14414652), (Point.mk 1 29299196), (Point.mk 1 50042253), (Point.mk 0 66278312), (Point.mk 0 92713608), (Point.mk 1 97886810), (Point.mk 1 100331683), (Point.mk 1 106599581), (Point.mk 1 119765212), (Point.mk 0 122743575), (Point.mk 1 132380322), (Point.mk 1 136255570), (Point.mk 1 145483633), (Point.mk 0 161398129), (Point.mk 1 183198934), (Point.mk 1 191204145), (Point.mk 0 199511667), (Point.mk 1 225946385), (Point.mk 1 228387451), (Point.mk 1 303556087), (Point.mk 0 328982814), (Point.mk 0 336170406), (Point.mk 1 363551078), (Point.mk 1 397788688), (Point.mk 0 398482191), (Point.mk 1 406085118), (Point.mk 0 412579635), (Point.mk 0 422627164), (Point.mk 1 425225970), (Point.mk 1 435262133), (Point.mk 1 435398956), (Point.mk 1 451999655), (Point.mk 1 496721433), (Point.mk 1 516955038), (Point.mk 0 529216989), (Point.mk 1 544157676), (Point.mk 0 550665974), (Point.mk 1 570200743), (Point.mk 0 575496518), (Point.mk 0 594252055), (Point.mk 1 621344559), (Point.mk 1 639195021), (Point.mk 1 640949549), (Point.mk 0 659204447), (Point.mk 1 690806858), (Point.mk 0 699053113), (Point.mk 0 702056911), (Point.mk 1 712400879), (Point.mk 0 722723007), (Point.mk 0 754164660), (Point.mk 0 754952144), (Point.mk 1 776042626), (Point.mk 0 781354594), (Point.mk 0 791369044), (Point.mk 0 799852335), (Point.mk 0 802613243), (Point.mk 0 808730196), (Point.mk 0 842782624), (Point.mk 1 849612042), (Point.mk 1 849653705), (Point.mk 1 867615305), (Point.mk 0 880760347), (Point.mk 0 885976059), (Point.mk 1 902844619), (Point.mk 1 922634260), (Point.mk 1 941896457), (Point.mk 0 942254447), (Point.mk 0 950285638), (Point.mk 1 955808601), (Point.mk 0 958205872), (Point.mk 1 964828255), (Point.mk 0 966297129), (Point.mk 1 972021928), (Point.mk 0 976275295), (Point.mk 0 982283207), (Point.mk 1 988241180), (Point.mk 1 993336437), (Point.mk 0 1020682132), (Point.mk 0 1049502297), (Point.mk 1 1071584788), (Point.mk 0 1071846542), (Point.mk 0 1104708156), (Point.mk 1 1107485548), (Point.mk 0 1117279278), (Point.mk 1 1158693953), (Point.mk 0 1188092709), (Point.mk 1 1191232320), (Point.mk 0 1194941652), (Point.mk 1 1198359998), (Point.mk 0 1254760600), (Point.mk 0 1259976703), (Point.mk 0 1284322889), (Point.mk 1 1289918756), (Point.mk 0 1299514849), (Point.mk 1 1304825302), (Point.mk 1 1315333179), (Point.mk 1 1317893757), (Point.mk 1 1345250406), (Point.mk 0 1386533503), (Point.mk 0 1393081284), (Point.mk 1 1402876115), (Point.mk 0 1409402032), (Point.mk 1 1411122539), (Point.mk 0 1417820714), (Point.mk 0 1420037515), (Point.mk 0 1441137146), (Point.mk 0 1445005508), (Point.mk 0 1445352530), (Point.mk 1 1492343575), (Point.mk 1 1499003810), (Point.mk 0 1567084965), (Point.mk 1 1578765224), (Point.mk 0 1607083746), (Point.mk 1 1619621712), (Point.mk 1 1621215242), (Point.mk 0 1632298618), (Point.mk 1 1649370129), (Point.mk 1 1651941955), (Point.mk 1 1653320052), (Point.mk 1 1660689440), (Point.mk 0 1668002604), (Point.mk 1 1678559574), (Point.mk 0 1681658010), (Point.mk 0 1683691738), (Point.mk 0 1701984998), (Point.mk 1 1712039491), (Point.mk 1 1724416267), (Point.mk 0 1729601949), (Point.mk 0 1772401741), (Point.mk 0 1777979579), (Point.mk 1 1780528060), (Point.mk 0 1793264226), (Point.mk 0 1796602440), (Point.mk 1 1807143885), (Point.mk 0 1813236014), (Point.mk 1 1862338497), (Point.mk 0 1862931437), (Point.mk 1 1865490982), (Point.mk 1 1892636328), (Point.mk 0 1905070891), (Point.mk 0 1921422695), (Point.mk 0 1946069475), (Point.mk 1 1969595080), (Point.mk 1 1980310546), (Point.mk 0 1981787616), (Point.mk 0 1985754057), (Point.mk 1 1991585899), (Point.mk 0 1991722391), (Point.mk 1 1994608128), (Point.mk 1 2000670126), (Point.mk 0 2026796702), (Point.mk 0 2036130048), (Point.mk 1 2052914331), (Point.mk 0 2054643019), (Point.mk 1 2064683747), (Point.mk 1 2069525386), (Point.mk 1 2070725635), (Point.mk 0 2124238640), (Point.mk 1 2128308146), (Point.mk 0 2162490977), (Point.mk 0 2167575215), (Point.mk 1 2175995520), (Point.mk 1 2189304982), (Point.mk 0 2218015085), (Point.mk 0 2222733843), (Point.mk 0 2228332547), (Point.mk 1 2230167796), (Point.mk 0 2232666097), (Point.mk 1 2252192997), (Point.mk 1 2259706379), (Point.mk 0 2265676832), (Point.mk 1 2273147970), (Point.mk 1 2311651275), (Point.mk 0 2323713451), (Point.mk 1 2348015736), (Point.mk 1 2349780607), (Point.mk 1 2355997885), (Point.mk 1 2368435036), (Point.mk 0 2374509988), (Point.mk 1 2387424194), (Point.mk 0 2403826213), (Point.mk 0 2407274947), (Point.mk 1 2412982836), (Point.mk 0 2420359283), (Point.mk 0 2447039978), (Point.mk 0 2451290186), (Point.mk 1 2458652583), (Point.mk 1 2463326570), (Point.mk 1 2469155206), (Point.mk 0 2495147350), (Point.mk 1 2527320906), (Point.mk 0 2537907586), (Point.mk 1 2557310114), (Point.mk 1 2559737199), (Point.mk 1 2561428755), (Point.mk 1 2596564414), (Point.mk 0 2620225868), (Point.mk 0 2624952184), (Point.mk 1 2682941883), (Point.mk 0 2683623104), (Point.mk 1 2683919146), (Point.mk 1 2702672178), (Point.mk 1 2714131164), (Point.mk 1 2715092721), (Point.mk 1 2736425942), (Point.mk 1 2769200705), (Point.mk 0 2781656823), (Point.mk 0 2786703296), (Point.mk 1 2798034298), (Point.mk 0 2799081929), (Point.mk 1 2820996475), (Point.mk 1 2853177082), (Point.mk 1 2863486147), (Point.mk 0 2885012747), (Point.mk 1 2892790223), (Point.mk 0 2893511345), (Point.mk 0 2926269866), (Point.mk 0 2934386727), (Point.mk 1 2934707716), (Point.mk 0 2956716980), (Point.mk 1 2959818865), (Point.mk 0 2986055576), (Point.mk 0 2988865330), (Point.mk 1 2995079611), (Point.mk 0 3007504355), (Point.mk 0 3042162938), (Point.mk 1 3052425294), (Point.mk 0 3053127042), (Point.mk 0 3091994592), (Point.mk 1 3133348443), (Point.mk 1 3133442845), (Point.mk 0 3135830435), (Point.mk 1 3142363347), (Point.mk 0 3149506300), (Point.mk 0 3166719452), (Point.mk 1 3175158860), (Point.mk 1 3217265183), (Point.mk 1 3223987738), (Point.mk 0 3227832065), (Point.mk 1 3235587085), (Point.mk 0 3246547774), (Point.mk 0 3250563144), (Point.mk 1 3276619977), (Point.mk 1 3293083890), (Point.mk 0 3310503060), (Point.mk 0 3311890692), (Point.mk 0 3318524334), (Point.mk 1 3336104076), (Point.mk 1 3346901910), (Point.mk 0 3355584417), (Point.mk 1 3359901675), (Point.mk 0 3372726853), (Point.mk 1 3373497792), (Point.mk 0 3376664195), (Point.mk 1 3396220167), (Point.mk 0 3397668240), (Point.mk 0 3403989612), (Point.mk 0 3415219819), (Point.mk 1 3425128595), (Point.mk 0 3438412554), (Point.mk 0 3455974937), (Point.mk 0 3474826106), (Point.mk 1 3505797672), (Point.mk 0 3506318920), (Point.mk 1 3545048726), (Point.mk 0 3546766966), (Point.mk 1 3548138541), (Point.mk 1 3577939603), (Point.mk 0 3583954753), (Point.mk 1 3585219371), (Point.mk 0 3613714485), (Point.mk 1 3617779493), (Point.mk 1 3621530790), (Point.mk 0 3625065852), (Point.mk 0 3630218335), (Point.mk 0 3641535053), (Point.mk 0 3646008532), (Point.mk 0 3684085096), (Point.mk 1 3691410504), (Point.mk 0 3709000264), (Point.mk 0 3727481315), (Point.mk 0 3742812379), (Point.mk 1 3755529781), (Point.mk 0 3758326986), (Point.mk 1 3783988679), (Point.mk 1 3803972575), (Point.mk 1 3812056383), (Point.mk 1 3820739917), (Point.mk 1 3825679083), (Point.mk 0 3837243538), (Point.mk 0 3846003066), (Point.mk 0 3886518294), (Point.mk 1 3935068505), (Point.mk 1 3943308862), (Point.mk 0 3952308591), (Point.mk 0 3952641081), (Point.mk 0 3961837628), (Point.mk 0 3972996737), (Point.mk 1 3982851160), (Point.mk 0 4015840302), (Point.mk 0 4047880464), (Point.mk 0 4064757018), (Point.mk 0 4065291672), (Point.mk 0 4067909336), (Point.mk 1 4073294330), (Point.mk 1 4076466292), (Point.mk 1 4089288868), (Point.mk 1 4106048568), (Point.mk 1 4150382270), (Point.mk 0 4157657746), (Point.mk 0 4159252145), (Point.mk 1 4183052449), (Point.mk 0 4188200580), (Point.mk 0 4189916146), (Point.mk 1 4215893812), (Point.mk 0 4221809081), (Point.mk 0 4223789242), (Point.mk 1 4254024118), (Point.mk 1 4276054410)]

/-- Executable check that a point list is exactly the CRC hash chain of
the given identity bytes, starting from previous hash `prev`, with all
node indices equal to `i`. -/
def chainCheck (idbytes : List Nat) (i : Nat) : Nat → List Point → Bool
  | _, [] => true
  | prev, p :: t =>
    p.node_index == i && p.hash == crc32 (idbytes ++ to_le_bytes prev) &&
      chainCheck idbytes i p.hash t

theorem chainHash_prev (a : SocketAddr) (j : Nat) :
    crc32 (identity_bytes a ++ to_le_bytes (chainPrev a j)) = chainHash a j := by
  cases j with
  | zero => rfl
  | succ k => rfl

theorem chainCheck_sound (a : SocketAddr) (i : Nat) :
    ∀ (L : List Point) (j : Nat),
      chainCheck (identity_bytes a) i (chainPrev a j) L = true →
      L = (List.range L.length).map (fun k => ⟨i, chainHash a (j + k)⟩) := by
  intro L
  induction L with
  | nil => intro j _; rfl
  | cons p t ih =>
    intro j hc
    simp only [chainCheck, Bool.and_eq_true, beq_iff_eq] at hc
    rcases hc with ⟨⟨hidx, hhash⟩, hrest⟩
    rw [chainHash_prev] at hhash
    have ht : t = (List.range t.length).map
        (fun k => ⟨i, chainHash a (j + 1 + k)⟩) := by
      refine ih (j + 1) ?_
      rw [show chainPrev a (j + 1) = chainHash a j from rfl, ← hhash]
      exact hrest
    have ht2 : t = (List.range t.length).map
        (fun k => ⟨i, chainHash a (j + k + 1)⟩) := by
      conv_lhs => rw [ht]
      refine List.map_congr_left ?_
      intro k hk
      have he : j + 1 + k = j + k + 1 := by omega
      rw [he]
    have hpe : p = (⟨i, chainHash a (j + 0)⟩ : Point) := by
      cases p
      exact congrArg₂ Point.mk hidx hhash
    rw [List.length_cons, List.range_succ_eq_map, List.map_cons,
      List.map_map, hpe]
    conv_lhs => rw [ht2]
    rfl

theorem nginx_pts1_eq : bucket_points 0 ⟨addr7777, 1⟩ 160 = nginxPts1 := by
  have hc : chainCheck (identity_bytes addr7777) 0 (chainPrev addr7777 0)
      nginxPts1 = true := by decide
  have h := chainCheck_sound addr7777 0 nginxPts1 0 hc
  rw [(bucket_points_chain_eq 0 160 ⟨addr7777, 1⟩).2, h,
    show nginxPts1.length = 160 by decide,
    show (160 * 1 : Nat) = 160 from rfl]
  refine List.map_congr_left ?_
  intro k hk
  rw [Nat.zero_add]

theorem nginx_pts2_eq : bucket_points 1 ⟨addr7778, 1⟩ 160 = nginxPts2 := by
  have hc : chainCheck (identity_bytes addr7778) 1 (chainPrev addr7778 0)
      nginxPts2 = true := by decide
  have h := chainCheck_sound addr7778 1 nginxPts2 0 hc
  rw [(bucket_points_chain_eq 1 160 ⟨addr7778, 1⟩).2, h,
    show nginxPts2.length = 160 by decide,
    show (160 * 1 : Nat) = 160 from rfl]
  refine List.map_congr_left ?_
  intro k hk
  rw [Nat.zero_add]

theorem nginx_flat_eq :
    all_points_from 160 0 [⟨addr7777, 1⟩, ⟨addr7778, 1⟩] =
      nginxPts1 ++ nginxPts2 := by
  show bucket_points 0 ⟨addr7777, 1⟩ 160 ++
      (bucket_points 1 ⟨addr7778, 1⟩ 160 ++ []) = _
  rw [nginx_pts1_eq, nginx_pts2_eq, List.append_nil]

set_option maxHeartbeats 4000000 in
theorem nginx_ring_eq :
    nginx_ring = ⟨nginxSorted, [addr7777, addr7778]⟩ := by
  have hsp : List.Pairwise (fun p q : Point => p.hash < q.hash)
      nginxSorted := by decide
  have hperm : (nginxPts1 ++ nginxPts2).Perm nginxSorted := by decide
  unfold nginx_ring Continuum.with_default_points Continuum.new
  simp only [List.isEmpty_cons, Bool.false_eq_true, if_false]
  rw [nginx_flat_eq,
    dedup_sort_eq_of_sorted_perm Point.hash (nginxPts1 ++ nginxPts2)
      nginxSorted hsp hperm]
  rfl

set_option maxHeartbeats 4000000 in
/-- C9: on the ring of the two weight-1 nodes `127.0.0.1:7777` and
`127.0.0.1:7778` with the default 160 virtual points per weight, the
key `"/some/path"` resolves to `127.0.0.1:7778` and the key `"/g"`
resolves to `127.0.0.1:7777` (the `matches_nginx_sample` expectations). -/
theorem nginx_sample_lookups :
    nginx_ring.node (strBytes "/some/path") = some addr7778 ∧
    nginx_ring.node (strBytes "/g") = some addr7777 := by
  rw [nginx_ring_eq]
  exact ⟨by decide, by decide⟩
